import Mathlib

/-!
Shallow embedding of `src/app.py` (Sage Creek Wrestling Analyzer, Streamlit page).

The page is a single module-level script.  External SaaS SDK calls
(Google Generative AI client, ElevenLabs TTS) are black boxes and are
modelled by oracle records supplying the result of each call; the code
of the module itself (name binding, control flow, session-state updates,
string handling, error handling) is translated faithfully.
-/

namespace WrestlingAnalyzer

/-- Python exceptions that the module-level code can raise or receive
from the vendor SDKs. -/
inductive PyErr
  | nameError (n : String)
  | keyError (k : String)
  | attributeError (a : String)
  | vendorError (msg : String)
deriving DecidableEq, Repr

/-- `str(e)` for the f-string interpolation in the error messages. -/
def errString : PyErr → String
  | .nameError n => "name " ++ n ++ " is not defined"
  | .keyError k => "KeyError: " ++ k
  | .attributeError a => "AttributeError: " ++ a
  | .vendorError m => m

/-- External SDK calls performed by `generate_analysis` (src/app.py lines
179-274), recorded as a trace.  `getFileStatus` and `sleepCall` are listed
so that the absence of a polling loop is a statement about the trace, not
about the vocabulary. -/
inductive ExtCall
  | clientInit              -- genai.Client(...) (line 181)
  | openFile                -- open(video_path, "rb") (line 184)
  | uploadFile              -- client.files.upload(file=file) (line 185)
  | getFileStatus           -- client.files.get(...) : never called in this revision
  | sleepCall               -- time.sleep(...) inside a poll loop : never called
  | generateContentStream   -- client.models.generate_content_stream (line 265)
deriving DecidableEq, Repr

/-- The vendor file handle returned by the upload endpoint: an opaque id
(uri), a mime type, and the externally-controlled processing state. -/
structure FileHandle where
  uri : String
  mime_type : String
  state : String
deriving DecidableEq, Repr

/-- Oracle for the black-box vendor calls made by `generate_analysis`:
each field is the outcome the vendor produces for the corresponding call. -/
structure GenOracle where
  clientInit : Except PyErr Unit
  openFile : Except PyErr Unit
  upload : Except PyErr FileHandle
  streamChunks : Except PyErr (List String)
deriving Repr

/-- `model_options` dict (src/app.py lines 152-156). -/
def model_options : List (String × String) :=
  [("Quick Analysis", "gemini-2.0-flash"),
   ("Standard Analysis", "gemini-2.0-pro"),
   ("Detailed Analysis", "gemini-2.0-ultra")]

/-- Python dict subscript `d[k]`: the value, or a KeyError. -/
def dictGet (d : List (String × String)) (k : String) : Option String :=
  (d.find? (fun p => p.1 == k)).map (fun p => p.2)

/-- `detail_level_text` dict (src/app.py lines 191-197), keyed by the
slider value 1-5; subscripting with any other key raises KeyError. -/
def detail_level_text : Nat → Option String
  | 1 => some "Keep the analysis brief and focused on the most critical issues."
  | 2 => some "Provide a standard analysis with key points and suggestions."
  | 3 => some "Offer a comprehensive analysis with detailed feedback and specific drills."
  | 4 => some "Create an in-depth analysis with extensive technical breakdowns and multiple drill options."
  | 5 => some "Develop an exceptionally detailed analysis with frame-by-frame technical assessment and comprehensive improvement plan."
  | _ => none

/-- Every name bound at module level in src/app.py: the eight imports
(lines 1-8) and every module-level assignment target, including the ones
made inside the sidebar block, the upload branch and the button handlers
(which all execute at module scope in a Streamlit script).  `types` is
referenced (lines 237, 240, 246, 249, 255, 298) but never bound. -/
def moduleBoundNames : List String :=
  ["st", "tempfile", "time", "os", "Path", "base64", "genai", "ElevenLabs",
   "API_KEY_GOOGLE", "API_KEY_ELEVENLABS",
   "analysis_detail", "model_options", "selected_model",
   "generate_analysis", "generate_audio_script",
   "video_file", "file_details", "temp_video", "video_path",
   "preview_placeholder", "user_query", "additional_context",
   "progress_bar", "status_placeholder", "analysis_placeholder",
   "full_query", "result_text", "text_chunk", "error",
   "col1", "col2", "elevenlabs_api_key", "selected_voice_id",
   "client", "voice_data", "voices_list", "selected_voice_name",
   "voice_style", "e", "audio_generator", "audio_bytes", "chunk"]

/-- Result of running the `generate_analysis` generator to exhaustion (or
to its first exception): the vendor calls it performed, the text chunks
it yielded, and whether it finished or raised. -/
structure GenResult where
  calls : List ExtCall
  chunks : List String
  outcome : Except PyErr Unit
deriving Repr

/-- `generate_analysis` (src/app.py lines 179-274), run against a vendor
oracle.  The body in order: create a client (line 181), open and upload
the video (lines 184-185), look up the model name (line 188) and the
detail text (line 202, inside the f-string), assemble the prompt (pure
string interpolation of already-evaluated values, lines 200-233, which
cannot raise and whose text no theorem needs), then evaluate
`types.Content` (line 237): `types` resolves against the module bindings
and, when unbound, raises NameError before the streaming call is ever
made.  Were `types` bound, the streaming loop would yield each non-empty
`chunk.text` (lines 265-272).  There is no status poll and no sleep
anywhere in the body. -/
def generate_analysis (o : GenOracle) (analysis_detail : Nat)
    (selected_model : String) : GenResult :=
  match o.clientInit with
  | .error e => ⟨[.clientInit], [], .error e⟩
  | .ok _ =>
    match o.openFile with
    | .error e => ⟨[.clientInit, .openFile], [], .error e⟩
    | .ok _ =>
      match o.upload with
      | .error e => ⟨[.clientInit, .openFile, .uploadFile], [], .error e⟩
      | .ok _uploaded_file =>
        match dictGet model_options selected_model with
        | none => ⟨[.clientInit, .openFile, .uploadFile], [],
                   .error (.keyError selected_model)⟩
        | some model =>
          match detail_level_text analysis_detail with
          | none => ⟨[.clientInit, .openFile, .uploadFile], [],
                     .error (.keyError (toString analysis_detail))⟩
          | some _dtext =>
            if moduleBoundNames.contains "types" then
              match o.streamChunks with
              | .error e =>
                  ⟨[.clientInit, .openFile, .uploadFile,
                    .generateContentStream], [], .error e⟩
              | .ok cs =>
                  ⟨[.clientInit, .openFile, .uploadFile,
                    .generateContentStream],
                   cs.filter (fun c => c ≠ ""), .ok ()⟩
            else
              let _ := model
              ⟨[.clientInit, .openFile, .uploadFile], [],
               .error (.nameError "types")⟩

/-- Number of status-fetch calls in a vendor-call trace. -/
def statusFetchCount (calls : List ExtCall) : Nat :=
  calls.count .getFileStatus

/-- Number of fixed-interval sleeps in a vendor-call trace. -/
def sleepCount (calls : List ExtCall) : Nat :=
  calls.count .sleepCall

/-- The processing state of the uploaded asset, when the upload
succeeded. -/
def uploadedState (o : GenOracle) : Option String :=
  match o.upload with
  | .ok f => some f.state
  | .error _ => none

/-- A concrete vendor oracle on which every external call succeeds and
the uploaded asset stays in the "PROCESSING" state. -/
def processingOracle : GenOracle :=
  { clientInit := .ok ()
    openFile := .ok ()
    upload := .ok ⟨"files/abc123", "video/mp4", "PROCESSING"⟩
    streamChunks := .ok ["chunk"] }

/-- `st.session_state` keys used by the page (initialized at src/app.py
lines 166-176, except `audio`, which is first assigned at line 492 and
therefore starts absent). -/
structure SessionState where
  analysis_result : Option String
  audio_script : Option String
  audio_generated : Bool
  show_audio_options : Bool
  processing_status : String
  audio : Option String
deriving DecidableEq, Repr

/-- `result_text` accumulation: `result_text += text_chunk` over the
stream (src/app.py lines 385-387). -/
def concatChunks (cs : List String) : String :=
  cs.foldl (fun a c => a ++ c) ""

/-- Observable outcome of one click of the "Get Analysis" button
(src/app.py lines 354-415): the session state afterwards, whether the
`finally` block removed the temp file, and what was shown. -/
structure GetAnalysisOut where
  state : SessionState
  tempFileRemoved : Bool
  emptyQueryWarning : Bool
  errorShown : Option String
  retryInfoShown : Bool
  displayedStream : String
deriving DecidableEq, Repr

/-- The "Get Analysis" button handler (src/app.py lines 354-415), with
the generator run `gen` as input.  An empty query only warns (lines
355-356) and never enters the try block, so the `finally` cleanup does
not run for it.  Otherwise the try block updates `processing_status`
three times (lines 361, 368, 373), streams the generator accumulating
`result_text` (lines 385-392), and on normal exhaustion stores the result
and resets the audio flags (lines 395-408); any exception is caught at
line 410, shown with `st.error` plus the retry `st.info` (lines 411-412),
leaving `analysis_result` untouched; the `finally` block (lines 413-415)
unlinks the temp file on both paths. -/
def get_analysis_action (user_query : String) (gen : GenResult)
    (s : SessionState) : GetAnalysisOut :=
  if user_query = "" then
    { state := s, tempFileRemoved := false, emptyQueryWarning := true,
      errorShown := none, retryInfoShown := false, displayedStream := "" }
  else
    let s0 := { s with processing_status := "Uploading video..." }
    let s1 := { s0 with processing_status :=
      "Processing video... This may take a few moments for longer videos." }
    let s2 := { s1 with processing_status :=
      "Analyzing wrestling technique..." }
    let result_text := concatChunks gen.chunks
    match gen.outcome with
    | .ok _ =>
      let s3 := { s2 with analysis_result := some result_text }
      let s4 := { s3 with processing_status :=
        "Analysis complete! Review your feedback below." }
      let s5 := { s4 with audio_generated := false,
                          show_audio_options := false,
                          audio_script := none }
      { state := s5, tempFileRemoved := true, emptyQueryWarning := false,
        errorShown := none, retryInfoShown := false,
        displayedStream := result_text }
    | .error e =>
      { state := s2, tempFileRemoved := true, emptyQueryWarning := false,
        errorShown := some ("Analysis error: " ++ errString e),
        retryInfoShown := true, displayedStream := result_text }

/-- The download button parameters (src/app.py lines 426-431). -/
structure DownloadSpec where
  data : String
  file_name : String
  mime : String
deriving DecidableEq, Repr

/-- The analysis display section (src/app.py lines 417-431): when
`st.session_state.analysis_result` is truthy (non-None and non-empty),
render it as markdown and offer the download button; the block contains
no assignment to session state. -/
def render_analysis_section (s : SessionState) :
    Option (String × DownloadSpec) :=
  match s.analysis_result with
  | none => none
  | some r =>
      if r = "" then none
      else some (r, { data := r,
                      file_name := "wrestling_technique_analysis.md",
                      mime := "text/markdown" })

/-- One page re-render of the display block: what it shows together with
the session state it leaves behind (unchanged, since lines 417-431 only
read session state). -/
def render_analysis_view (s : SessionState) :
    Option (String × DownloadSpec) × SessionState :=
  (render_analysis_section s, s)

/-- A vendor voice record (name and id) from `client.voices.get_all()`. -/
structure Voice where
  name : String
  voice_id : String
deriving DecidableEq, Repr

/-- The hard-coded default voice id (src/app.py lines 441, 465, 468). -/
def default_voice_id : String := "21m00Tcm4TlvDq8ikWAM"

/-- Voice lookup (src/app.py lines 462-465):
`next((v.voice_id for v in voice_data.voices if v.name == selected), None)`
followed by `if not selected_voice_id:` falling back to the default
(Python falsiness covers both None and an empty id). -/
def select_voice_id (voices : List Voice)
    (selected_voice_name : String) : String :=
  match voices.find? (fun v => v.name == selected_voice_name) with
  | none => default_voice_id
  | some v => if v.voice_id = "" then default_voice_id else v.voice_id

/-- Oracle for the black-box calls of the "Generate Audio Analysis"
handler: the `generate_audio_script` model call and the ElevenLabs
text-to-speech stream. -/
structure AudioOracle where
  script : Except PyErr String
  ttsChunks : Except PyErr (List String)
deriving Repr

/-- Observable outcome of one click of "Generate Audio Analysis"
(src/app.py lines 472-505). -/
structure AudioOut where
  state : SessionState
  errorShown : Option String
  retryInfoShown : Bool
  keyMissingError : Bool
deriving DecidableEq, Repr

/-- The "Generate Audio Analysis" button handler (src/app.py lines
472-505).  With an API key, the try block stores the generated script
(line 477), streams the TTS audio into `audio_bytes` (lines 484-491) and
stores it with `audio_generated = True` (lines 492-493); any exception is
caught at line 502 and shown as `st.error(f"Audio generation error: ...")`
with no accompanying retry `st.info`.  Without a key only an error about
the missing key is shown (line 505). -/
def generate_audio_action (hasKey : Bool) (o : AudioOracle)
    (s : SessionState) : AudioOut :=
  if hasKey then
    match o.script with
    | .error e =>
        { state := s,
          errorShown := some ("Audio generation error: " ++ errString e),
          retryInfoShown := false, keyMissingError := false }
    | .ok script =>
        let s1 := { s with audio_script := some script }
        match o.ttsChunks with
        | .error e =>
            { state := s1,
              errorShown := some ("Audio generation error: " ++ errString e),
              retryInfoShown := false, keyMissingError := false }
        | .ok cs =>
            let s2 := { s1 with audio := some (concatChunks cs),
                                audio_generated := true }
            { state := s2, errorShown := none,
              retryInfoShown := false, keyMissingError := false }
  else
    { state := s, errorShown := none, retryInfoShown := false,
      keyMissingError := true }

/-- The `[google]` section of `.streamlit/secrets.toml`, as the page
reads it. -/
structure GoogleSecrets where
  api_key : Option String
deriving DecidableEq, Repr

/-- The secrets available to the page: `st.secrets["google"]["api_key"]`
(line 18) raises KeyError when the section or the key is absent;
`st.secrets.get("elevenlabs", {}).get("api_key", None)` (line 19) never
raises. -/
structure Secrets where
  google : Option GoogleSecrets
  elevenlabs_api_key : Option String
deriving DecidableEq, Repr

/-- How the startup prologue (src/app.py lines 17-27) ends. -/
inductive StartupResult
  | uncaughtKeyError (key : String)
  | stoppedWithError (msg : String)
  | configured (api_key : String)
deriving DecidableEq, Repr

/-- The startup prologue (src/app.py lines 17-27): reading the Google key
raises KeyError when absent (Streamlit renders the uncaught exception on
the page and the script run ends); a present-but-falsy key takes the
`else` branch, `st.error(...)` then `st.stop()` (lines 26-27); a truthy
key configures the SDK and execution continues. -/
def startup (secrets : Secrets) : StartupResult :=
  match secrets.google with
  | none => .uncaughtKeyError "google"
  | some g =>
    match g.api_key with
    | none => .uncaughtKeyError "api_key"
    | some k =>
        if k = "" then
          .stoppedWithError
            "Google API Key not found. Please set the GOOGLE_API_KEY in Streamlit secrets."
        else .configured k

/-- The script run stops inside the prologue: either `st.stop()` or an
uncaught exception; no statement after line 27 executes. -/
def startupHalted : StartupResult → Bool
  | .configured _ => false
  | _ => true

/-- An error is put on the page: `st.error` (line 26) or the exception
box Streamlit draws for an uncaught exception. -/
def startupReportsError : StartupResult → Bool
  | .configured _ => false
  | _ => true

/-- A session state as first initialized (src/app.py lines 166-176). -/
def initialSession : SessionState :=
  { analysis_result := none, audio_script := none,
    audio_generated := false, show_audio_options := false,
    processing_status := "", audio := none }

/-- A concrete vendor oracle whose upload returns an asset already in the
"ACTIVE" state. -/
def activeOracle : GenOracle :=
  { clientInit := .ok ()
    openFile := .ok ()
    upload := .ok ⟨"files/xyz789", "video/mp4", "ACTIVE"⟩
    streamChunks := .ok ["chunk"] }

/- ------------------------------------------------------------------ -/
/- Helper lemmas shared by several claims.                             -/
/- ------------------------------------------------------------------ -/

theorem types_not_bound : moduleBoundNames.contains "types" = false := by
  decide

theorem gen_always_errors (o : GenOracle) (d : Nat) (m : String) :
    (generate_analysis o d m).chunks = [] ∧
    ∃ e, (generate_analysis o d m).outcome = Except.error e := by
  unfold generate_analysis
  cases h1 : o.clientInit with
  | error e => exact ⟨rfl, e, rfl⟩
  | ok u1 =>
    cases h2 : o.openFile with
    | error e => exact ⟨rfl, e, rfl⟩
    | ok u2 =>
      cases h3 : o.upload with
      | error e => exact ⟨rfl, e, rfl⟩
      | ok f =>
        cases h4 : dictGet model_options m with
        | none => exact ⟨rfl, _, rfl⟩
        | some model =>
          cases h5 : detail_level_text d with
          | none => exact ⟨rfl, _, rfl⟩
          | some t =>
            simp only [types_not_bound, Bool.false_eq_true, if_false]
            exact ⟨trivial, _, rfl⟩

theorem no_status_fetch (o : GenOracle) (d : Nat) (m : String) :
    statusFetchCount (generate_analysis o d m).calls = 0 ∧
    sleepCount (generate_analysis o d m).calls = 0 := by
  unfold generate_analysis
  cases o.clientInit with
  | error e => exact ⟨rfl, rfl⟩
  | ok u1 =>
    cases o.openFile with
    | error e => exact ⟨rfl, rfl⟩
    | ok u2 =>
      cases o.upload with
      | error e => exact ⟨rfl, rfl⟩
      | ok f =>
        cases dictGet model_options m with
        | none => exact ⟨rfl, rfl⟩
        | some model =>
          cases detail_level_text d with
          | none => exact ⟨rfl, rfl⟩
          | some t =>
            simp only [types_not_bound, Bool.false_eq_true, if_false]
            exact ⟨rfl, rfl⟩

theorem action_error_case (q : String) (gen : GenResult) (s : SessionState)
    (e : PyErr) (hq : q ≠ "") (he : gen.outcome = Except.error e) :
    (get_analysis_action q gen s).errorShown
        = some ("Analysis error: " ++ errString e) ∧
    (get_analysis_action q gen s).retryInfoShown = true ∧
    (get_analysis_action q gen s).tempFileRemoved = true ∧
    (get_analysis_action q gen s).state.analysis_result
        = s.analysis_result := by
  rcases gen with ⟨calls, chunks, outcome⟩
  cases he
  simp [get_analysis_action, hq]

/- ------------------------------------------------------------------ -/
/- Claims.                                                             -/
/- ------------------------------------------------------------------ -/

/-- C1: iterating the generator returned by `generate_analysis` raises an
exception before yielding any text chunk — when every vendor call
succeeds, specifically a NameError for the unbound module name `types` —
so the Get Analysis handler never reaches the statement storing a
non-None `analysis_result` and always takes its generic except branch. -/
theorem c1_types_unbound_success_unreachable
    (o : GenOracle) (d : Nat) (m : String) (q : String) (s : SessionState)
    (hq : q ≠ "") :
    (generate_analysis o d m).chunks = [] ∧
    (∃ e, (generate_analysis o d m).outcome = Except.error e) ∧
    (∀ f, o.clientInit = .ok () → o.openFile = .ok () → o.upload = .ok f →
      (dictGet model_options m).isSome → (detail_level_text d).isSome →
      (generate_analysis o d m).outcome
        = Except.error (.nameError "types")) ∧
    (get_analysis_action q (generate_analysis o d m) s).errorShown.isSome
        = true ∧
    (get_analysis_action q (generate_analysis o d m) s).state.analysis_result
        = s.analysis_result := by
  obtain ⟨hc, e, he⟩ := gen_always_errors o d m
  obtain ⟨h1, h2, h3, h4⟩ := action_error_case q _ s e hq he
  refine ⟨hc, ⟨e, he⟩, ?_, by simp [h1], h4⟩
  intro f hci hop hup hm hd
  unfold generate_analysis
  rw [hci, hop, hup]
  obtain ⟨model, hmodel⟩ := Option.isSome_iff_exists.mp hm
  obtain ⟨t, ht⟩ := Option.isSome_iff_exists.mp hd
  rw [hmodel, ht]
  simp only [types_not_bound, Bool.false_eq_true, if_false]

/-- Witness for C1 at a concrete oracle, query and session state. -/
theorem c1_witness :
    "analyze my stance" ≠ "" ∧
    ((generate_analysis processingOracle 3 "Quick Analysis").chunks = [] ∧
     (∃ e, (generate_analysis processingOracle 3 "Quick Analysis").outcome
        = Except.error e) ∧
     (∀ f, processingOracle.clientInit = .ok () →
        processingOracle.openFile = .ok () →
        processingOracle.upload = .ok f →
        (dictGet model_options "Quick Analysis").isSome →
        (detail_level_text 3).isSome →
        (generate_analysis processingOracle 3 "Quick Analysis").outcome
          = Except.error (.nameError "types")) ∧
     (get_analysis_action "analyze my stance"
        (generate_analysis processingOracle 3 "Quick Analysis")
        initialSession).errorShown.isSome = true ∧
     (get_analysis_action "analyze my stance"
        (generate_analysis processingOracle 3 "Quick Analysis")
        initialSession).state.analysis_result
        = initialSession.analysis_result) :=
  ⟨by decide,
   c1_types_unbound_success_unreachable processingOracle 3 "Quick Analysis"
     "analyze my stance" initialSession (by decide)⟩

/-- C2 counterexample: on a run where every vendor call succeeds and the
uploaded asset remains in the "PROCESSING" state, `generate_analysis`
performs zero status fetches and zero fixed-interval sleeps — so the
system does not repeatedly fetch the asset status until readiness or
failure, and no 60-second warning path exists. -/
theorem c2_counterexample :
    statusFetchCount
        (generate_analysis processingOracle 3 "Quick Analysis").calls = 0 ∧
    sleepCount
        (generate_analysis processingOracle 3 "Quick Analysis").calls = 0 ∧
    uploadedState processingOracle = some "PROCESSING" := by
  decide

/-- C2 (amended): this revision performs no status polling at all — on
every run, `generate_analysis` fetches the uploaded asset status zero
times and sleeps zero times; after the upload it proceeds directly toward
the inference call, and no timeout warning is emitted. -/
theorem c2_amended_no_polling (o : GenOracle) (d : Nat) (m : String) :
    statusFetchCount (generate_analysis o d m).calls = 0 ∧
    sleepCount (generate_analysis o d m).calls = 0 :=
  no_status_fetch o d m

/-- C3: for every uploaded-file state other than "PROCESSING" or
"FAILED", the polling over the uploaded asset status terminates within
one iteration (degenerately: this revision performs zero status-fetch
iterations). -/
theorem c3_poll_terminates_within_one_iteration
    (o : GenOracle) (d : Nat) (m : String) (st : String)
    (hs : uploadedState o = some st)
    (h1 : st ≠ "PROCESSING") (h2 : st ≠ "FAILED") :
    statusFetchCount (generate_analysis o d m).calls ≤ 1 := by
  have h := (no_status_fetch o d m).1
  omega

/-- Witness for C3 at a concrete oracle whose asset state is "ACTIVE". -/
theorem c3_witness :
    uploadedState activeOracle = some "ACTIVE" ∧
    "ACTIVE" ≠ "PROCESSING" ∧ "ACTIVE" ≠ "FAILED" ∧
    statusFetchCount
        (generate_analysis activeOracle 3 "Quick Analysis").calls ≤ 1 :=
  ⟨by decide, by decide, by decide,
   c3_poll_terminates_within_one_iteration activeOracle 3 "Quick Analysis"
     "ACTIVE" (by decide) (by decide) (by decide)⟩

/-- C4: for every Get Analysis request (non-empty query, so the try block
actually runs), the temporary video file is removed by the `finally`
block whether the analysis succeeds or raises. -/
theorem c4_temp_file_removed (q : String) (gen : GenResult)
    (s : SessionState) (hq : q ≠ "") :
    (get_analysis_action q gen s).tempFileRemoved = true := by
  rcases gen with ⟨calls, chunks, outcome⟩
  cases outcome with
  | ok u => simp [get_analysis_action, hq]
  | error e => simp [get_analysis_action, hq]

/-- Witness for C4 at a concrete query, generator run and session state. -/
theorem c4_witness :
    "check my stand-up escape" ≠ "" ∧
    (get_analysis_action "check my stand-up escape"
      ⟨[], [], Except.error (.nameError "types")⟩
      initialSession).tempFileRemoved = true :=
  ⟨by decide,
   c4_temp_file_removed "check my stand-up escape"
     ⟨[], [], Except.error (.nameError "types")⟩ initialSession (by decide)⟩

/-- C5: when the inference run yields a fixed non-empty text, the
success path stores it verbatim, the display section renders exactly that
text, and the download button offers exactly that text under a file name
with a .md extension and content type text/markdown. -/
theorem c5_fixed_text_display_and_download
    (q : String) (gen : GenResult) (s : SessionState) (fixed : String)
    (hq : q ≠ "") (hok : gen.outcome = Except.ok ())
    (ht : concatChunks gen.chunks = fixed) (hne : fixed ≠ "") :
    ∃ d, render_analysis_section (get_analysis_action q gen s).state
           = some (fixed, d) ∧
         d.data = fixed ∧
         d.file_name = "wrestling_technique_analysis.md" ∧
         (∃ stem, d.file_name = stem ++ ".md") ∧
         d.mime = "text/markdown" := by
  rcases gen with ⟨calls, chunks, outcome⟩
  cases hok
  simp only [concatChunks] at ht
  have hmd : "wrestling_technique_analysis.md"
      = "wrestling_technique_analysis" ++ ".md" := by decide
  refine ⟨{ data := fixed, file_name := "wrestling_technique_analysis.md",
            mime := "text/markdown" }, ?_, rfl, rfl,
          ⟨"wrestling_technique_analysis", hmd⟩, rfl⟩
  simp [get_analysis_action, hq, render_analysis_section, concatChunks,
        ht, hne]

/-- Witness for C5 at a concrete mocked stream. -/
theorem c5_witness :
    "analyze my stance" ≠ "" ∧
    (GenResult.outcome ⟨[.generateContentStream],
      ["## TECHNIQUE DIAGNOSIS\n", "Lower your stance."], Except.ok ()⟩
        = Except.ok ()) ∧
    concatChunks (GenResult.chunks ⟨[.generateContentStream],
      ["## TECHNIQUE DIAGNOSIS\n", "Lower your stance."], Except.ok ()⟩)
        = "## TECHNIQUE DIAGNOSIS\nLower your stance." ∧
    "## TECHNIQUE DIAGNOSIS\nLower your stance." ≠ "" ∧
    ∃ d, render_analysis_section (get_analysis_action "analyze my stance"
           ⟨[.generateContentStream],
            ["## TECHNIQUE DIAGNOSIS\n", "Lower your stance."],
            Except.ok ()⟩ initialSession).state
           = some ("## TECHNIQUE DIAGNOSIS\nLower your stance.", d) ∧
         d.data = "## TECHNIQUE DIAGNOSIS\nLower your stance." ∧
         d.file_name = "wrestling_technique_analysis.md" ∧
         (∃ stem, d.file_name = stem ++ ".md") ∧
         d.mime = "text/markdown" :=
  ⟨by decide, rfl, by decide, by decide,
   c5_fixed_text_display_and_download "analyze my stance"
     ⟨[.generateContentStream],
      ["## TECHNIQUE DIAGNOSIS\n", "Lower your stance."], Except.ok ()⟩
     initialSession "## TECHNIQUE DIAGNOSIS\nLower your stance."
     (by decide) rfl (by decide) (by decide)⟩

/-- C6: a selected voice name absent from the vendor voice list makes the
lookup produce None, and the falsiness check falls back to the fixed
default voice id instead of raising. -/
theorem c6_voice_fallback (voices : List Voice) (n : String)
    (h : ∀ v ∈ voices, v.name ≠ n) :
    select_voice_id voices n = "21m00Tcm4TlvDq8ikWAM" := by
  have hf : voices.find? (fun v => v.name == n) = none := by
    apply List.find?_eq_none.mpr
    intro v hv
    simp [h v hv]
  simp [select_voice_id, hf, default_voice_id]

/-- Witness for C6 at a concrete vendor voice list. -/
theorem c6_witness :
    (∀ v ∈ [Voice.mk "Rachel" "x1", Voice.mk "Adam" "x2"],
        v.name ≠ "Coach Steele") ∧
    select_voice_id [Voice.mk "Rachel" "x1", Voice.mk "Adam" "x2"]
        "Coach Steele" = "21m00Tcm4TlvDq8ikWAM" :=
  ⟨by decide,
   c6_voice_fallback [Voice.mk "Rachel" "x1", Voice.mk "Adam" "x2"]
     "Coach Steele" (by decide)⟩

/-- C7: a missing (or empty, hence falsy) Google API key is fatal at
startup: the prologue ends with an error on the page (st.error or the
uncaught KeyError box) and the script run halts before any further
processing. -/
theorem c7_missing_key_fatal (s : Secrets)
    (h : s.google = none ∨
         ∃ g, s.google = some g ∧
              (g.api_key = none ∨ g.api_key = some "")) :
    startupHalted (startup s) = true ∧
    startupReportsError (startup s) = true := by
  rcases h with h | ⟨g, hg, h | h⟩
  · simp [startup, h, startupHalted, startupReportsError]
  · simp [startup, hg, h, startupHalted, startupReportsError]
  · simp [startup, hg, h, startupHalted, startupReportsError]

/-- Witness for C7 at a secrets file with no google section. -/
theorem c7_witness :
    ((Secrets.mk none none).google = none ∨
     ∃ g, (Secrets.mk none none).google = some g ∧
          (g.api_key = none ∨ g.api_key = some "")) ∧
    startupHalted (startup (Secrets.mk none none)) = true ∧
    startupReportsError (startup (Secrets.mk none none)) = true :=
  ⟨Or.inl rfl, c7_missing_key_fatal (Secrets.mk none none) (Or.inl rfl)⟩

/-- C8 counterexample: an exception raised during the audio action (here,
the NameError the script-generation call raises because `types` is
unbound) is caught and shown as an error message, but no retry suggestion
accompanies it — refuting the claim that every caught exception is shown
with a retry suggestion. -/
theorem c8_counterexample :
    (generate_audio_action true
        ⟨Except.error (.nameError "types"), Except.ok []⟩
        initialSession).errorShown.isSome = true ∧
    (generate_audio_action true
        ⟨Except.error (.nameError "types"), Except.ok []⟩
        initialSession).retryInfoShown = false := by
  decide

/-- C8 (amended): every exception from the generator run of Get Analysis,
and from the script-generation or speech-synthesis calls of Generate
Audio Analysis, is caught at the top of its action and shown as a
user-facing error message instead of propagating; the Get Analysis action
additionally shows a retry suggestion, while the audio action shows no
retry suggestion. -/
theorem c8_amended_catch_and_display
    (q : String) (gen : GenResult) (s : SessionState) (e : PyErr)
    (o1 o2 : AudioOracle) (s1 s2 : SessionState)
    (e1 e2 : PyErr) (sc : String)
    (hq : q ≠ "") (hg : gen.outcome = Except.error e)
    (ha : o1.script = Except.error e1)
    (hb : o2.script = Except.ok sc)
    (hc : o2.ttsChunks = Except.error e2) :
    ((get_analysis_action q gen s).errorShown.isSome = true ∧
     (get_analysis_action q gen s).retryInfoShown = true) ∧
    ((generate_audio_action true o1 s1).errorShown.isSome = true ∧
     (generate_audio_action true o1 s1).retryInfoShown = false) ∧
    ((generate_audio_action true o2 s2).errorShown.isSome = true ∧
     (generate_audio_action true o2 s2).retryInfoShown = false) := by
  obtain ⟨h1, h2, _, _⟩ := action_error_case q gen s e hq hg
  refine ⟨⟨by simp [h1], h2⟩, ?_, ?_⟩
  · simp [generate_audio_action, ha]
  · simp [generate_audio_action, hb, hc]

/-- Witness for C8 (amended) at concrete failing oracles. -/
theorem c8_witness :
    "how is my top control" ≠ "" ∧
    (GenResult.outcome ⟨[], [], Except.error (.vendorError "quota")⟩
        = Except.error (.vendorError "quota")) ∧
    (AudioOracle.script ⟨Except.error (.nameError "types"), Except.ok []⟩
        = Except.error (.nameError "types")) ∧
    (AudioOracle.script ⟨Except.ok "script text",
        Except.error (.vendorError "tts down")⟩ = Except.ok "script text") ∧
    (AudioOracle.ttsChunks ⟨Except.ok "script text",
        Except.error (.vendorError "tts down")⟩
        = Except.error (.vendorError "tts down")) ∧
    (((get_analysis_action "how is my top control"
        ⟨[], [], Except.error (.vendorError "quota")⟩
        initialSession).errorShown.isSome = true ∧
      (get_analysis_action "how is my top control"
        ⟨[], [], Except.error (.vendorError "quota")⟩
        initialSession).retryInfoShown = true) ∧
     ((generate_audio_action true
        ⟨Except.error (.nameError "types"), Except.ok []⟩
        initialSession).errorShown.isSome = true ∧
      (generate_audio_action true
        ⟨Except.error (.nameError "types"), Except.ok []⟩
        initialSession).retryInfoShown = false) ∧
     ((generate_audio_action true
        ⟨Except.ok "script text", Except.error (.vendorError "tts down")⟩
        initialSession).errorShown.isSome = true ∧
      (generate_audio_action true
        ⟨Except.ok "script text", Except.error (.vendorError "tts down")⟩
        initialSession).retryInfoShown = false)) :=
  ⟨by decide, rfl, rfl, rfl, rfl,
   c8_amended_catch_and_display "how is my top control"
     ⟨[], [], Except.error (.vendorError "quota")⟩ initialSession
     (.vendorError "quota")
     ⟨Except.error (.nameError "types"), Except.ok []⟩
     ⟨Except.ok "script text", Except.error (.vendorError "tts down")⟩
     initialSession initialSession
     (.nameError "types") (.vendorError "tts down") "script text"
     (by decide) rfl rfl rfl rfl⟩

/-- C9: re-rendering the analysis display block from two session states
holding the same analysis result shows the same text, and rendering
leaves the stored analysis result (indeed the whole session state)
unchanged. -/
theorem c9_render_deterministic_no_mutation (s t : SessionState)
    (h : s.analysis_result = t.analysis_result) :
    (render_analysis_view s).1 = (render_analysis_view t).1 ∧
    (render_analysis_view s).2 = s := by
  constructor
  · simp [render_analysis_view, render_analysis_section, h]
  · rfl

/-- Witness for C9 at two concrete states differing outside
`analysis_result`. -/
theorem c9_witness :
    (SessionState.analysis_result
        ⟨some "## Analysis", none, false, false, "", none⟩
      = SessionState.analysis_result
        ⟨some "## Analysis", some "s", true, true, "done", some "a"⟩) ∧
    ((render_analysis_view
        ⟨some "## Analysis", none, false, false, "", none⟩).1
      = (render_analysis_view
        ⟨some "## Analysis", some "s", true, true, "done", some "a"⟩).1 ∧
     (render_analysis_view
        ⟨some "## Analysis", none, false, false, "", none⟩).2
      = ⟨some "## Analysis", none, false, false, "", none⟩) :=
  ⟨rfl,
   c9_render_deterministic_no_mutation
     ⟨some "## Analysis", none, false, false, "", none⟩
     ⟨some "## Analysis", some "s", true, true, "done", some "a"⟩ rfl⟩

/-- C10: when the Get Analysis action completes without raising, the
session state afterwards holds the concatenation of all streamed chunks
as the analysis result and has the audio flags reset:
audio_generated = false, show_audio_options = false, audio_script = none. -/
theorem c10_success_postcondition (q : String) (gen : GenResult)
    (s : SessionState) (hq : q ≠ "") (hok : gen.outcome = Except.ok ()) :
    (get_analysis_action q gen s).state.analysis_result
        = some (concatChunks gen.chunks) ∧
    (get_analysis_action q gen s).state.audio_generated = false ∧
    (get_analysis_action q gen s).state.show_audio_options = false ∧
    (get_analysis_action q gen s).state.audio_script = none := by
  rcases gen with ⟨calls, chunks, outcome⟩
  cases hok
  simp [get_analysis_action, hq]

/-- Witness for C10 at a concrete successful stream. -/
theorem c10_witness :
    "analyze my single leg" ≠ "" ∧
    (GenResult.outcome ⟨[.generateContentStream], ["A", "B"], Except.ok ()⟩
        = Except.ok ()) ∧
    ((get_analysis_action "analyze my single leg"
        ⟨[.generateContentStream], ["A", "B"], Except.ok ()⟩
        ⟨some "old", some "old script", true, true, "", some "bytes"⟩
      ).state.analysis_result
        = some (concatChunks ["A", "B"]) ∧
     (get_analysis_action "analyze my single leg"
        ⟨[.generateContentStream], ["A", "B"], Except.ok ()⟩
        ⟨some "old", some "old script", true, true, "", some "bytes"⟩
      ).state.audio_generated = false ∧
     (get_analysis_action "analyze my single leg"
        ⟨[.generateContentStream], ["A", "B"], Except.ok ()⟩
        ⟨some "old", some "old script", true, true, "", some "bytes"⟩
      ).state.show_audio_options = false ∧
     (get_analysis_action "analyze my single leg"
        ⟨[.generateContentStream], ["A", "B"], Except.ok ()⟩
        ⟨some "old", some "old script", true, true, "", some "bytes"⟩
      ).state.audio_script = none) :=
  ⟨by decide, rfl,
   c10_success_postcondition "analyze my single leg"
     ⟨[.generateContentStream], ["A", "B"], Except.ok ()⟩
     ⟨some "old", some "old script", true, true, "", some "bytes"⟩
     (by decide) rfl⟩

end WrestlingAnalyzer
